import Mathlib

set_option maxHeartbeats 1600000

/-!
Verification of the ArcLink/WebDC protocol client
(`obspy/arclink/client.py`, class `Client`).

The Python source is shallowly embedded below: strings are `String`/`List Char`,
the line-oriented wire protocol is modelled by explicit streams of characters
and lists of server responses, and the stateful request lifecycle is modelled
by pure functions that additionally return the trace of commands sent to the
server.  Python library primitives used by the client (`str.strip`, `int()`,
substring tests via `in`, `fnmatch.fnmatch`, `str.split`) are given faithful
executable models first.
-/

/-- Whitespace class used by Python's `str.strip()` with no arguments. -/
def pySpace (c : Char) : Bool :=
  c = ' ' || c = '\t' || c = '\n' || c = '\r' || c = '\x0b' || c = '\x0c'

/-- Python `str.strip()`: drop leading and trailing whitespace. -/
def pyStripList (l : List Char) : List Char :=
  ((l.dropWhile pySpace).reverse.dropWhile pySpace).reverse

/-- Python `str.strip()` on `String`. -/
def pyStrip (s : String) : String := ⟨pyStripList s.data⟩

/-- Does the second list start with the first one?  (Helper for the model of
Python's substring operator `in`.) -/
def listStarts : List Char → List Char → Bool
  | [], _ => true
  | _ :: _, [] => false
  | a :: as, b :: bs => a == b && listStarts as bs

/-- Python's substring operator `needle in hay` on character lists. -/
def containsSub : List Char → List Char → Bool
  | needle, [] => needle.isEmpty
  | needle, c :: t => listStarts needle (c :: t) || containsSub needle t

/-- Python's substring operator on `String`. -/
def strContains (needle hay : String) : Bool := containsSub needle.data hay.data

/-- Accumulate the value of a run of decimal digits; `none` on a non-digit. -/
def digitsValGo : List Char → Nat → Option Nat
  | [], acc => some acc
  | c :: t, acc =>
    if c.isDigit then digitsValGo t (acc * 10 + (c.toNat - '0'.toNat)) else none

/-- Value of a nonempty all-digit string, `none` otherwise. -/
def digitsVal (l : List Char) : Option Nat :=
  match l with
  | [] => none
  | _ :: _ => digitsValGo l 0

/-- Python `int(s)` on a string: strip whitespace, optional sign, decimal
digits; `none` models the `ValueError` raised on anything else. -/
def pyIntParse (l : List Char) : Option Int :=
  match pyStripList l with
  | '-' :: t => (digitsVal t).map (fun n => -(n : Int))
  | '+' :: t => (digitsVal t).map (fun n => (n : Int))
  | t => (digitsVal t).map (fun n => (n : Int))

/-- Fuel-indexed glob matcher; every recursive call strictly decreases
`pattern.length + name.length`, so fuel equal to that sum is always enough. -/
def globGo : Nat → List Char → List Char → Bool
  | 0, pat, name => pat.isEmpty && name.isEmpty
  | _ + 1, [], name => name.isEmpty
  | fuel + 1, '*' :: ps, [] => globGo fuel ps []
  | fuel + 1, '*' :: ps, c :: ns =>
    globGo fuel ps (c :: ns) || globGo fuel ('*' :: ps) ns
  | _ + 1, '?' :: _, [] => false
  | fuel + 1, '?' :: ps, _ :: ns => globGo fuel ps ns
  | _ + 1, _ :: _, [] => false
  | fuel + 1, p :: ps, c :: ns => p == c && globGo fuel ps ns

/-- Python `fnmatch.fnmatch(name, pat)` for patterns built from literals,
`*` and `?` (the client's routing selectors never use bracket classes).
First argument is the pattern, second the name. -/
def globMatch (pat name : List Char) : Bool :=
  globGo (pat.length + name.length) pat name

/-- Model of `Client._readln(value)` (client.py lines 154-162), applied to the
raw text that `read_until(value + '\r\n', timeout)` handed back: strip it,
then accept unless the sentinel is absent from the stripped line (Python's
`value not in line`), in which case `ArcLinkException` is raised. -/
def readln (value raw : String) : Except String String :=
  if containsSub value.data (pyStrip raw).data then .ok (pyStrip raw)
  else .error ("Timeout waiting for expected " ++ value ++ ", got " ++ pyStrip raw)

/-- Request verb line built by `Client.getQC` (client.py lines 663-673). -/
def getQCRequestType (outages logs : Bool) (parameters : String) : String :=
  let r0 := "REQUEST QC"
  let r1 := if outages then r0 ++ " outages=true" else r0 ++ " outages=false"
  let r2 := if logs then r1 ++ " logs=false" else r1 ++ " logs=false"
  r2 ++ " parameters=" ++ parameters

/-- One routing-table entry as stored by `getRouting`/`_findRoute`: either the
empty dict `{}` that `_findRoute` appends for an empty route list ("the
responding node itself is authoritative"), or a decoded `<arclink>` entry. -/
inductive TableEntry where
  | auth : TableEntry
  | route (priority : Int) (host : String) (port : Int) : TableEntry
deriving DecidableEq

/-- Sort key of `_findRoute` (line 624): `x.get('priority', 1000)`.  Only the
`{}` sentinel lacks the key; decoded entries always carry one. -/
def entryPrio : TableEntry → Int
  | .auth => 1000
  | .route p _ _ => p

/-- Comparison used to model `out.sort(lambda x, y: cmp(...))` on priorities. -/
def prioLE (x y : TableEntry) : Prop := entryPrio x ≤ entryPrio y

instance : DecidableRel prioLE :=
  fun x y => inferInstanceAs (Decidable (entryPrio x ≤ entryPrio y))

instance : IsTotal TableEntry prioLE := ⟨fun x y => le_total (entryPrio x) (entryPrio y)⟩

instance : IsTrans TableEntry prioLE := ⟨fun _ _ _ => le_trans⟩

/-- Python `s.split(sep)`; the result is always nonempty. -/
def pySplit (sep : Char) : List Char → List (List Char)
  | [] => [[]]
  | c :: t =>
    match pySplit sep t with
    | [] => [[]]
    | h :: r => if c = sep then [] :: h :: r else (c :: h) :: r

/-- Attributes of one `<arclink>` node of the routing response as lxml hands
them over (`none` = attribute absent, i.e. `node.get(...)` returned `None`).
The `start`/`end` attributes are decoded into external `UTCDateTime` values
the client never consults for routing, so they are left out of the model. -/
structure RawArclink where
  priority : Option String
  address : String
deriving DecidableEq

/-- Decode of one `<arclink>` node in `getRouting` (client.py lines 575-589):
`int(node.get('priority'))` with `-1` substituted when that raises (absent or
unparseable attribute), then host and port from the first comma-separated
`host:port` pair.  `none` models the uncaught exception when the address has
no `:` part or a non-numeric port. -/
def decodeArclink (a : RawArclink) : Option TableEntry :=
  let prio : Int :=
    match a.priority with
    | none => -1
    | some s =>
      match pyIntParse s.data with
      | some n => n
      | none => -1
  let address := (pySplit ',' a.address.data).headD []
  match pySplit ':' address with
  | _ :: [] => none
  | [] => none
  | hostPart :: portPart :: _ =>
    match pyIntParse (pyStripList portPart) with
    | some n => some (.route prio ⟨pyStripList hostPart⟩ n)
    | none => none

/-- A 4-part routing-table key `network.station.location.channel` as built by
`getRouting` (lines 567-572; the 0.1 schema leaves location/channel empty). -/
structure StreamKey where
  net : String
  sta : String
  loc : String
  cha : String
deriving DecidableEq

/-- The routing dictionary `getRouting` returns, as an association list. -/
abbrev RoutingTable := List (StreamKey × List TableEntry)

/-- Per-part test of `_findRoute` (lines 603-610): key part `part` survives
against selector field `sel` unless `part` is nonempty, `sel` differs from
`"*"`, and `fnmatch(part, sel)` fails (the key part is the name, the selector
the pattern). -/
def partMatches (part sel : String) : Bool :=
  part.data.isEmpty || sel == "*" || globMatch sel.data part.data

/-- Key filter of `Client._findRoute` (lines 599-611).  Selector fields follow
the `request_data` layout: `net, sta, cha, loc = (request_data + ['', ''])[2:6]`,
compared against key parts `[net, sta, loc, cha]`. -/
def keyMatches (k : StreamKey) (net sta cha loc : String) : Bool :=
  partMatches k.net net && partMatches k.sta sta &&
    partMatches k.loc loc && partMatches k.cha cha

/-- Model of `Client._findRoute` (lines 592-626): keep the matching keys,
merge their entries (an empty list contributes the `{}` sentinel), and sort
ascending by `x.get('priority', 1000)` with a stable sort.  `none` models the
`False` returned when no key matches. -/
def findRoute (routes : RoutingTable) (net sta cha loc : String) :
    Option (List TableEntry) :=
  let keys := routes.filter (fun kv => keyMatches kv.1 net sta cha loc)
  if keys.isEmpty then none
  else
    let merged := keys.foldl
      (fun out kv => if kv.2.isEmpty then out ++ [TableEntry.auth] else out ++ kv.2) []
    some (List.insertionSort prioLE merged)

/-- Bound on identical consecutive status responses (client.py line 25). -/
def MAX_REQUESTS : Nat := 50

inductive PollExit where
  | ready : PollExit
  | stalled : PollExit
deriving DecidableEq

/-- Model of the status-polling loop of `Client._request` (lines 251-271).
`docs` are the successive status documents the server returns, one per
`STATUS` poll; `loops` and `old` are `_loops` and `_old_xml_doc`.  Returns
the document the loop stops at, the exit kind, and the number of polls made;
`none` means the loop is still waiting for further status documents after
consuming the whole list. -/
def pollGo : List String → Nat → Option String → Option (String × PollExit × Nat)
  | [], _, _ => none
  | d :: rest, loops, old =>
    if containsSub "ready=\"true\"".data d.data then some (d, .ready, 1)
    else
      let loops' := if old = some d then loops + 1 else 0
      if loops' > MAX_REQUESTS then some (d, .stalled, 1)
      else
        match pollGo rest loops' (some d) with
        | none => none
        | some (doc, e, k) => some (doc, e, k + 1)

/-- The polling loop started with `_loops = 0` and `_old_xml_doc = None`. -/
def pollLoop (docs : List String) : Option (String × PollExit × Nat) :=
  pollGo docs 0 none

/-- Python `file.readline(n)`: read at most `n` characters, stopping after the
first newline.  Returns the line and the remaining stream. -/
def readLineN : Nat → List Char → List Char × List Char
  | 0, s => ([], s)
  | _ + 1, [] => ([], [])
  | n + 1, c :: t =>
    if c = '\n' then ([c], t)
    else
      let (l, r) := readLineN n t
      (c :: l, r)

/-- Byte-reading loop of the download phase (lines 304-307):
`while len(data) < length: data += fd.read(min(4096, length - len(data)))`.
A length of zero or less skips the loop; when the stream holds fewer than
`length` bytes the blocking reads never make up the difference and the loop
never finishes (`none`). -/
def readBody (stream : List Char) (length : Int) : Option (List Char × List Char) :=
  if length ≤ 0 then some ([], stream)
  else if stream.length < length.toNat then none
  else some (stream.take length.toNat, stream.drop length.toNat)

inductive DlResult where
  | ok (data : List Char) (rest : List Char) : DlResult
  | framing : DlResult
  | crash : DlResult
  | hang : DlResult
deriving DecidableEq

/-- Model of the download phase of `Client._request` (lines 301-310): read a
length line of at most 100 characters, apply `int()` (`crash` models the
uncaught `ValueError` on a non-numeric line), read that many body bytes
(`hang` models the read loop never completing), then read a trailer line;
`if buf != "END" or len(data) != length` raises `Exception('Wrong length!')`
(`framing`). -/
def downloadPhase (stream : List Char) : DlResult :=
  let r1 := readLineN 100 stream
  match pyIntParse (pyStripList r1.1) with
  | none => .crash
  | some len =>
    match readBody r1.2 len with
    | none => .hang
    | some (data, rest2) =>
      let r2 := readLineN 100 rest2
      if pyStripList r2.1 ≠ "END".data ∨ (data.length : Int) ≠ len then .framing
      else .ok data r2.2

/-- Commands the request lifecycle writes to the server. -/
inductive Cmd where
  | status (id : Int) : Cmd
  | purge (id : Int) : Cmd
  | bye : Cmd
  | download (id : Int) : Cmd
deriving DecidableEq

/-- Terminal status codes checked by the error loop (lines 273-274). -/
def ERR_CODES : List String :=
  ["DENIED", "CANCELLED", "CANCEL", "ERROR", "RETRY", "WARN", "UNSET"]

/-- First terminal code whose `status="CODE"` marker occurs in the document
(the `for err_code in [...]` loop, lines 273-276). -/
def findErrCode (doc : String) : Option String :=
  ERR_CODES.find? (fun c => containsSub ("status=\"" ++ c ++ "\"").data doc.data)

/-- Lookup in a Python dict modelled as an association list. -/
def dictLookup : List (String × String) → String → Option String
  | [], _ => none
  | (k, v) :: t, key => if k = key then some v else dictLookup t key

/-- Decryption post-processing of `Client._request` (lines 319-333).  `dcid`
is the archive id lxml extracts from the status document (external);
`decrypt key data` stands for `SSLWrapper(key).update(data) +
SSLWrapper(key).final()` from the external `obspy.arclink.decrypt` module.
Returns the payload and the warnings emitted. -/
def postProcess (doc : String) (dcid : String) (keys : List (String × String))
    (decrypt : String → List Char → List Char) (data : List Char) :
    List Char × List String :=
  if containsSub "encrypted=\"true\"".data doc.data then
    match dictLookup keys dcid with
    | some k => (decrypt k data, [])
    | none => (data, ["Could not decrypt waveform data for dcid " ++ dcid ++ "."])
  else (data, [])

inductive ReqOutcome where
  | ok (payload : List Char) : ReqOutcome
  | statusErr (code : String) : ReqOutcome
  | noData : ReqOutcome
  | idError : ReqOutcome
  | noContent : ReqOutcome
  | framingError : ReqOutcome
  | crash : ReqOutcome
  | hang : ReqOutcome
deriving DecidableEq

/-- The error classes named by the release claim: a terminal status code
(StatusError), the two "no data" document shapes (NoData), and the
missing-success-marker safeguard (EmptyResult). -/
def isClassifiedErr : ReqOutcome → Bool
  | .statusErr _ => true
  | .noData => true
  | .idError => true
  | .noContent => true
  | _ => false

/-- Model of `Client._request` from classification to return (lines 272-333),
given the final status document `doc`, the raw download stream, and the
decryption environment.  Returns the trace of commands sent to the server in
order, the warnings emitted, and the outcome. -/
def classifyPhase (reqId : Int) (doc : String) (stream : List Char)
    (dcid : String) (keys : List (String × String))
    (decrypt : String → List Char → List Char) :
    List Cmd × List String × ReqOutcome :=
  match findErrCode doc with
  | some c => ([.purge reqId, .bye], [], .statusErr c)
  | none =>
    if containsSub "status=\"NODATA\"".data doc.data then
      ([.purge reqId, .bye], [], .noData)
    else if containsSub "id=\"NODATA\"".data doc.data ||
        containsSub "id=\"ERROR\"".data doc.data then
      ([.purge reqId, .bye], [], .idError)
    else if !containsSub "<line content".data doc.data then
      ([.purge reqId, .bye], [], .noContent)
    else
      match downloadPhase stream with
      | .crash => ([.download reqId], [], .crash)
      | .hang => ([.download reqId], [], .hang)
      | .framing => ([.download reqId], [], .framingError)
      | .ok data _ =>
        let pw := postProcess doc dcid keys decrypt data
        ([.download reqId, .purge reqId, .bye], pw.2, .ok pw.1)

inductive FetchOut where
  | request (host : String) (port : Int) : FetchOut
  | routingError : FetchOut
deriving DecidableEq

/-- The `for item in table` walk of `_fetch` (lines 206-226): the first entry
always decides — `{}` or an entry matching the current endpoint keeps the
connection, anything else retargets and executes there; the trailing `raise`
is reached only on an empty table. -/
def walkTable : List TableEntry → String → Int → FetchOut
  | [], _, _ => .routingError
  | .auth :: _, h, p => .request h p
  | .route _ th tp :: _, h, p =>
    if th = h ∧ tp = p then .request h p else .request th tp

/-- Model of the routed dispatch of `Client._fetch` (lines 181-226) with
`route=True`.  `tbl h p` is the `_findRoute` result for the routing table
served by the node at `(h, p)`; the first component of the result records the
endpoints whose routing tables were queried, in order.  `fuel` bounds the
origin-fallback recursion (2 always suffices, proved below); `none` marks the
exhausted-fuel case. -/
def fetchGo (tbl : String → Int → Option (List TableEntry)) :
    Nat → String → Int → String → Int → List (String × Int) × Option FetchOut
  | 0, _, _, _, _ => ([], none)
  | fuel + 1, h, p, initHost, initPort =>
    match tbl h p with
    | none =>
      if h ≠ initHost ∧ p ≠ initPort then
        let r := fetchGo tbl fuel initHost initPort initHost initPort
        ((h, p) :: r.1, r.2)
      else ([(h, p)], some .routingError)
    | some table => ([(h, p)], some (walkTable table h p))

/-- A Python dict of DCID keys and passphrases. -/
abbrev Dcids := List (String × String)

/-- Heap of dict objects; an address is an index into `cells`. -/
structure PyHeap where
  cells : List Dcids
deriving DecidableEq

/-- Dereference a dict address (out-of-range never occurs in the model). -/
def heapGet (h : PyHeap) (a : Nat) : Dcids := h.cells.getD a []

/-- In-place mutation of the dict stored at address `a`. -/
def heapSet (h : PyHeap) (a : Nat) (d : Dcids) : PyHeap := ⟨h.cells.set a d⟩

/-- Address of the single dict created when Python evaluates the
`def __init__(..., dcid_keys={}, ...)` line: the default argument is
evaluated once, so every call omitting `dcid_keys` receives this object. -/
def defaultDcidAddr : Nat := 0

/-- Heap at interpreter start: only the shared default dict, empty. -/
def heap0 : PyHeap := ⟨[[]]⟩

/-- The part of a `Client` instance the key-store claims are about. -/
structure ClientV where
  dcidKeysAddr : Nat
deriving DecidableEq

/-- Python `key, value = line.split('=', 1)`: text before the first `=` and
everything after it; `none` models the `ValueError` the unpacking raises when
the line has no `=`. -/
def splitEqOnce : List Char → Option (List Char × List Char)
  | [] => none
  | c :: t =>
    if c = '=' then some ([], t)
    else
      match splitEqOnce t with
      | none => none
      | some (k, v) => some (c :: k, v)

/-- One iteration of the key-file loop (lines 132-137): strip the key, and
only insert (with stripped value) when the key is not already present. -/
def loadKeyLine (d : Dcids) (line : String) : Option Dcids :=
  match splitEqOnce line.data with
  | none => none
  | some (k, v) =>
    let key : String := ⟨pyStripList k⟩
    if (dictLookup d key).isSome then some d
    else some (d ++ [(key, ⟨pyStripList v⟩)])

/-- The whole `for line in lines` loop over the key file. -/
def loadKeyLines (d : Dcids) : List String → Option Dcids
  | [] => some d
  | line :: rest =>
    match loadKeyLine d line with
    | none => none
    | some d' => loadKeyLines d' rest

/-- Model of `Client.__init__`'s handling of `dcid_keys` (lines 91-137).
`explicit` is the caller-supplied dict (`none` = argument omitted, so the
shared default object is bound via `self.dcid_keys = dcid_keys`);
`fileLines` are the lines of the effective key file (`[]` when no readable
file exists).  Returns the heap after construction and the new client;
`none` models the uncaught `ValueError` on a malformed key-file line. -/
def clientInit (h : PyHeap) (explicit : Option Dcids) (fileLines : List String) :
    Option (PyHeap × ClientV) :=
  match explicit with
  | some d =>
    let addr := h.cells.length
    match loadKeyLines d fileLines with
    | none => none
    | some d' => some (⟨h.cells ++ [d']⟩, ⟨addr⟩)
  | none =>
    match loadKeyLines (heapGet h defaultDcidAddr) fileLines with
    | none => none
    | some d' => some (heapSet h defaultDcidAddr d', ⟨defaultDcidAddr⟩)

/-! Helper lemmas about the Python-primitive models. -/

theorem listStarts_iff : ∀ n h : List Char, listStarts n h = true ↔ ∃ q, h = n ++ q
  | [], h => by simp [listStarts]
  | a :: as, [] => by simp [listStarts]
  | a :: as, b :: bs => by
    simp only [listStarts, Bool.and_eq_true, beq_iff_eq, listStarts_iff as bs,
      List.cons_append, List.cons.injEq]
    constructor
    · rintro ⟨rfl, q, rfl⟩
      exact ⟨q, rfl, rfl⟩
    · rintro ⟨q, rfl, rfl⟩
      exact ⟨rfl, q, rfl⟩

theorem containsSub_iff : ∀ n h : List Char, containsSub n h = true ↔ ∃ p q, h = p ++ n ++ q
  | n, [] => by
    cases n <;> simp [containsSub, List.isEmpty]
  | n, c :: t => by
    simp only [containsSub, Bool.or_eq_true, listStarts_iff, containsSub_iff n t]
    constructor
    · rintro (⟨q, hq⟩ | ⟨p, q, hq⟩)
      · exact ⟨[], q, by simpa using hq⟩
      · exact ⟨c :: p, q, by simp [hq]⟩
    · rintro ⟨p, q, hpq⟩
      cases p with
      | nil => exact Or.inl ⟨q, by simpa using hpq⟩
      | cons x xs =>
        rw [List.cons_append, List.cons_append] at hpq
        cases hpq
        exact Or.inr ⟨xs, q, rfl⟩

theorem containsSub_append_right (n h t : List Char) (hc : containsSub n h = true) :
    containsSub n (h ++ t) = true := by
  rcases (containsSub_iff n h).mp hc with ⟨p, q, rfl⟩
  exact (containsSub_iff n (p ++ n ++ q ++ t)).mpr ⟨p, q ++ t, by simp⟩

theorem globMatch_nil_pat (name : List Char) : globMatch [] name = name.isEmpty := by
  cases name <;> rfl

theorem readLineN_crlf : ∀ (line : List Char) (n : Nat) (rest : List Char),
    '\n' ∉ line → line.length + 2 ≤ n →
    readLineN n (line ++ '\r' :: '\n' :: rest) = (line ++ ['\r', '\n'], rest)
  | [], n, rest, _, hn => by
    obtain ⟨m, rfl⟩ : ∃ m, n = m + 2 := ⟨n - 2, by omega⟩
    simp [readLineN]
  | c :: cs, n, rest, hmem, hn => by
    obtain ⟨m, rfl⟩ : ∃ m, n = m + 1 := ⟨n - 1, by omega⟩
    have hc : ¬(c = '\n') := fun h => hmem (h ▸ List.mem_cons_self c cs)
    have hlen : cs.length + 2 ≤ m := by
      simp only [List.length_cons] at hn
      omega
    have ih := readLineN_crlf cs m rest (fun h => hmem (List.mem_cons_of_mem c h)) hlen
    simp [readLineN, hc, ih]

theorem readBody_exact (body t : List Char) :
    readBody (body ++ t) (body.length : Int) = some (body, t) := by
  unfold readBody
  rcases body with _ | ⟨c, cs⟩
  · simp
  · have hpos : ¬((((c :: cs).length : Int)) ≤ 0) := by
      simp [List.length_cons]
    have htn : ((c :: cs).length : Int).toNat = (c :: cs).length := by simp
    rw [if_neg hpos, htn]
    have hlen : ¬(((c :: cs) ++ t).length < (c :: cs).length) := by
      simp [List.length_append]
    rw [if_neg hlen]
    simp [List.take_left, List.drop_left]

theorem pollGo_cons_same (d : String) (rest : List String) (loops : Nat)
    (hnr : containsSub "ready=\"true\"".data d.data = false)
    (hnot : ¬(loops + 1 > MAX_REQUESTS)) :
    pollGo (d :: rest) loops (some d) =
      match pollGo rest (loops + 1) (some d) with
      | none => none
      | some (doc, e, k) => some (doc, e, k + 1) := by
  simp [pollGo, hnr, hnot]

theorem pollGo_cons_new (d : String) (rest : List String) (loops : Nat)
    (old : Option String)
    (hnr : containsSub "ready=\"true\"".data d.data = false)
    (hne : ¬(old = some d)) :
    pollGo (d :: rest) loops old =
      match pollGo rest 0 (some d) with
      | none => none
      | some (doc, e, k) => some (doc, e, k + 1) := by
  simp [pollGo, hnr, hne, MAX_REQUESTS]

theorem pollGo_stall : ∀ (n : Nat) (loops : Nat) (d : String) (rest : List String),
    containsSub "ready=\"true\"".data d.data = false →
    loops + n = MAX_REQUESTS + 1 → 1 ≤ n →
    pollGo (List.replicate n d ++ rest) loops (some d) = some (d, .stalled, n)
  | 0, _, _, _, _, _, h1 => by omega
  | 1, loops, d, rest, hnr, hsum, _ => by
    have hl : loops = MAX_REQUESTS := by omega
    simp [pollGo, hnr, hl]
  | n + 2, loops, d, rest, hnr, hsum, _ => by
    have hnot : ¬(loops + 1 > MAX_REQUESTS) := by omega
    have ih := pollGo_stall (n + 1) (loops + 1) d rest hnr (by omega) (by omega)
    rw [List.replicate_succ, List.cons_append, pollGo_cons_same d _ loops hnr hnot, ih]

theorem pollGo_waiting : ∀ (n : Nat) (loops : Nat) (d : String),
    containsSub "ready=\"true\"".data d.data = false →
    loops + n ≤ MAX_REQUESTS →
    pollGo (List.replicate n d) loops (some d) = none
  | 0, _, _, _, _ => rfl
  | n + 1, loops, d, hnr, hle => by
    have hnot : ¬(loops + 1 > MAX_REQUESTS) := by omega
    have ih := pollGo_waiting n (loops + 1) d hnr (by omega)
    rw [List.replicate_succ, pollGo_cons_same d _ loops hnr hnot, ih]

/-! Claim theorems. -/

/-- Claim C10 (confirmed): a sentinel-expecting line read succeeds exactly when
the stripped response contains the expected sentinel anywhere as a substring,
and otherwise raises the timeout-style `ArcLinkException`; in particular the
line `ERROR: BROKEN` is accepted when `OK` is expected, because `BROKEN`
contains `OK`. -/
theorem C10_readln_substring_acceptance :
    (∀ value raw : String,
      (∃ s, readln value raw = .ok s) ↔
        ∃ p q, (pyStrip raw).data = p ++ value.data ++ q) ∧
    readln "OK" "ERROR: BROKEN\r\n" = .ok "ERROR: BROKEN" ∧
    readln "OK" "ERROR\r\n" =
      .error "Timeout waiting for expected OK, got ERROR" := by
  refine ⟨fun value raw => ?_,
    by unfold readln; rw [if_pos (by decide)]; exact congrArg Except.ok (by decide),
    by unfold readln; rw [if_neg (by decide)]; exact congrArg Except.error (by decide)⟩
  constructor
  · rintro ⟨s, hs⟩
    unfold readln at hs
    split at hs
    · next h => exact (containsSub_iff _ _).mp h
    · exact absurd hs (by simp)
  · intro hex
    have h : containsSub value.data (pyStrip raw).data = true :=
      (containsSub_iff _ _).mpr hex
    exact ⟨pyStrip raw, by unfold readln; rw [if_pos h]⟩

/-- Claim C8 (confirmed): both branches of the `logs` toggle in `getQC` append
the same ` logs=false` token, so the transmitted request line always contains
`logs=false` and does not depend on the `logs` argument at all. -/
theorem C8_getQC_logs_toggle_dead :
    ∀ (outages : Bool) (parameters : String),
      (∀ logs : Bool, getQCRequestType outages logs parameters =
        getQCRequestType outages false parameters) ∧
      (∀ logs : Bool,
        containsSub "logs=false".data (getQCRequestType outages logs parameters).data
          = true) := by
  intro outages parameters
  constructor
  · intro logs
    cases logs <;> rfl
  · intro logs
    cases outages <;> cases logs <;>
      · show containsSub "logs=false".data ((_ ++ parameters) : String).data = true
        rw [String.data_append]
        exact containsSub_append_right _ _ _ (by decide)

/-- Claim C7 (confirmed): when the final status document marks the payload
encrypted, a dcid present in the key store makes the returned payload the
decryptor's output on the downloaded bytes with that key, while an absent
dcid returns the bytes unchanged together with a non-fatal warning. -/
theorem C7_decrypt_dispatch (doc dcid : String) (keys : List (String × String))
    (decrypt : String → List Char → List Char) (data : List Char)
    (henc : containsSub "encrypted=\"true\"".data doc.data = true) :
    (∀ k, dictLookup keys dcid = some k →
      postProcess doc dcid keys decrypt data = (decrypt k data, [])) ∧
    (dictLookup keys dcid = none →
      postProcess doc dcid keys decrypt data =
        (data, ["Could not decrypt waveform data for dcid " ++ dcid ++ "."])) := by
  constructor
  · intro k hk
    simp [postProcess, henc, hk]
  · intro hk
    simp [postProcess, henc, hk]

/-- Witness for C7: with the key present the payload is the decryptor output,
at a concrete instantiation. -/
theorem C7_decrypt_dispatch_witness :
    postProcess "<volume encrypted=\"true\"/>" "GFZ" [("GFZ", "secret")]
        (fun k d => k.data ++ d) "ct".data =
      ("secret".data ++ "ct".data, []) :=
  (C7_decrypt_dispatch "<volume encrypted=\"true\"/>" "GFZ" [("GFZ", "secret")]
    (fun k d => k.data ++ d) "ct".data (by decide)).1 "secret" (by decide)

/-- Claim C4 counterexample: the claim predicts that an empty selector field
matches any table-key segment and that a `*` key part matches anything, but
the key `BW.MANZ.00.EHZ` does not match the selector
(net=`BW`, sta=`MANZ`, cha=`EHZ`, loc=empty) — the empty location selector
fails against the nonempty key part `00` — and the literal key part `*` does
not match the selector value `BW`. -/
theorem C4_counterexample :
    keyMatches ⟨"BW", "MANZ", "00", "EHZ"⟩ "BW" "MANZ" "EHZ" "" = false ∧
    partMatches "00" "" = false ∧
    partMatches "*" "BW" = false := by decide

/-- Claim C4 amended: a table key matches exactly when each key part is empty,
or the corresponding selector field is `*`, or the key part glob-matches the
selector field used as the pattern; consequently an empty selector field
matches only an empty key part (it is not a wildcard), and a key part `*` is
an ordinary literal for the glob test. -/
theorem C4_amended :
    (∀ (k : StreamKey) (net sta cha loc : String),
      keyMatches k net sta cha loc = true ↔
        ((k.net = "" ∨ net = "*" ∨ globMatch net.data k.net.data = true) ∧
         (k.sta = "" ∨ sta = "*" ∨ globMatch sta.data k.sta.data = true) ∧
         (k.loc = "" ∨ loc = "*" ∨ globMatch loc.data k.loc.data = true) ∧
         (k.cha = "" ∨ cha = "*" ∨ globMatch cha.data k.cha.data = true))) ∧
    (∀ part : String, partMatches part "" = true ↔ part = "") := by
  constructor
  · intro k net sta cha loc
    simp only [keyMatches, partMatches, Bool.and_eq_true, Bool.or_eq_true,
      List.isEmpty_iff, beq_iff_eq, String.ext_iff]
    tauto
  · intro part
    have hg : ∀ m : List Char, globMatch [] m = m.isEmpty := fun m => by
      cases m <;> rfl
    show (part.data.isEmpty || (("" : String) == "*") ||
      globMatch ("" : String).data part.data) = true ↔ part = ""
    rw [show (("" : String) == "*") = false from by decide,
      show ("" : String).data = ([] : List Char) from rfl, hg]
    simp [List.isEmpty_iff, String.ext_iff]

/-- Claim C3 counterexample: an `<arclink>` node with no `priority` attribute
decodes to priority `-1`, and `_findRoute` then sorts it *before* an entry
carrying priority `5` — the claim says priority-less entries sort after all
entries that carry one. -/
theorem C3_counterexample :
    decodeArclink ⟨none, "h1.example.org:18001"⟩ =
      some (TableEntry.route (-1) "h1.example.org" 18001) ∧
    findRoute
      [(⟨"BW", "MANZ", "", ""⟩,
        [TableEntry.route 5 "h2.example.org" 18001,
         TableEntry.route (-1) "h1.example.org" 18001])]
      "BW" "MANZ" "" "" =
      some [TableEntry.route (-1) "h1.example.org" 18001,
            TableEntry.route 5 "h2.example.org" 18001] := by
  constructor
  · rfl
  · decide

/-- Claim C3 amended: the candidate list produced by route matching is sorted
ascending by the stored priority key; an entry whose `priority` attribute is
missing or unparseable is decoded with priority `-1` and therefore sorts
*before* every entry carrying a server-assigned non-negative priority (the
`{}` authoritative sentinel, the only entry without the key, sorts with the
default key `1000`). -/
theorem C3_amended :
    (∀ (routes : RoutingTable) (net sta cha loc : String) (l : List TableEntry),
      findRoute routes net sta cha loc = some l → l.Sorted prioLE) ∧
    (∀ (a : RawArclink) (e : TableEntry),
      a.priority = none → decodeArclink a = some e → entryPrio e = -1) ∧
    entryPrio TableEntry.auth = 1000 := by
  refine ⟨?_, ?_, rfl⟩
  · intro routes net sta cha loc l h
    simp only [findRoute] at h
    split at h
    · simp at h
    · rw [Option.some_inj] at h
      subst h
      exact List.sorted_insertionSort prioLE _
  · intro a e hpri hdec
    simp only [decodeArclink, hpri] at hdec
    split at hdec
    · simp at hdec
    · simp at hdec
    · split at hdec
      · rw [Option.some_inj] at hdec
        subst hdec
        rfl
      · simp at hdec

/-- Witness for C3 amended: sortedness and the `-1` decode at concrete
inputs. -/
theorem C3_amended_witness :
    ([TableEntry.route (-1) "h1" 18001, TableEntry.route 5 "h2" 18001] :
        List TableEntry).Sorted prioLE ∧
    entryPrio (TableEntry.route (-1) "h1.example.org" 18001) = -1 :=
  ⟨C3_amended.1 [(⟨"BW", "MANZ", "", ""⟩,
      [TableEntry.route 5 "h2" 18001, TableEntry.route (-1) "h1" 18001])]
      "BW" "MANZ" "" "" _ (by decide),
   C3_amended.2.1 ⟨none, "h1.example.org:18001"⟩ _ rfl rfl⟩

/-- Claim C5 counterexample: 51 consecutive identical non-ready status
documents do *not* terminate polling — the loop consumes all 51 and is still
waiting — while 52 do (the first only seeds `_old_xml_doc`; the counter
exceeds `MAX_REQUESTS = 50` at the 52nd). -/
theorem C5_counterexample :
    pollLoop (List.replicate 51 "<status ready=\"false\"/>") = none ∧
    pollLoop (List.replicate 52 "<status ready=\"false\"/>") =
      some ("<status ready=\"false\"/>", PollExit.stalled, 52) := by decide

/-- Claim C5 amended: each new status document is compared to the immediately
preceding one, an exact match increments the stall counter and a difference
resets it to zero, and polling is abandoned once the counter exceeds 50, the
last document being classified as if final; consequently a sequence of 52
(not 51) consecutive identical non-ready status documents terminates polling,
while 51 leave the loop still polling. -/
theorem C5_amended (d : String) (rest : List String)
    (hnr : containsSub "ready=\"true\"".data d.data = false) :
    pollLoop (List.replicate 52 d ++ rest) = some (d, PollExit.stalled, 52) ∧
    pollLoop (List.replicate 51 d) = none := by
  constructor
  · show pollGo (List.replicate 52 d ++ rest) 0 none = _
    have h1 : pollGo (List.replicate 51 d ++ rest) 0 (some d) =
        some (d, .stalled, 51) := pollGo_stall 51 0 d rest hnr rfl (by omega)
    rw [List.replicate_succ, List.cons_append,
      pollGo_cons_new d _ 0 none hnr (by simp), h1]
  · show pollGo (List.replicate 51 d) 0 none = _
    have h1 : pollGo (List.replicate 50 d) 0 (some d) = none :=
      pollGo_waiting 50 0 d hnr (by decide)
    rw [List.replicate_succ, pollGo_cons_new d _ 0 none hnr (by simp), h1]

/-- Witness for C5 amended at a concrete non-ready document. -/
theorem C5_amended_witness :
    pollLoop (List.replicate 52 "<status ready=\"false\" x=\"y\"/>") =
      some ("<status ready=\"false\" x=\"y\"/>", PollExit.stalled, 52) :=
  (C5_amended "<status ready=\"false\" x=\"y\"/>" [] (by decide)).1

/-- Claim C6 counterexample: a server frame declaring length 3 whose actual
body is the 8 bytes `abcEND\r\n` (followed by the trailer `END`) is accepted
with the truncated payload `abc` instead of raising FramingError, because the
read loop consumes exactly the declared count and the next bytes happen to
form an `END` line; and a frame declaring length 10 over a 3-byte body never
returns at all (the blocking read loop waits forever) instead of raising
FramingError.  So a byte count different from the declared L does not yield
FramingError. -/
theorem C6_counterexample :
    downloadPhase "3\r\nabcEND\r\nEND\r\n".data =
      DlResult.ok "abc".data "END\r\n".data ∧
    ("abcEND\r\n".data).length ≠ 3 ∧
    downloadPhase "10\r\nabcEND\r\n".data = DlResult.hang := by decide

/-- Claim C6 amended: given a declared decimal length L (read from a line of
at most 100 characters) and a following body of exactly L bytes, the stripped
trailer line decides the outcome — equal to `END` returns exactly those L
bytes, anything else is a fatal FramingError; the `len(data) != length` half
of the check never fires (the read loop always stops at exactly L bytes), so
a server body whose byte count differs from L is not reliably detected: it
either desynchronises into the trailer comparison, is silently accepted when
an `END` line happens to start at offset L, or blocks forever when the stream
is short. -/
theorem C6_amended (lenLine body trailer : List Char)
    (h1 : '\n' ∉ lenLine) (h2 : lenLine.length ≤ 98)
    (h3 : pyIntParse (pyStripList (lenLine ++ ['\r', '\n'])) =
      some (body.length : Int))
    (h4 : '\n' ∉ trailer) (h5 : trailer.length ≤ 98) :
    downloadPhase (lenLine ++ '\r' :: '\n' ::
        (body ++ (trailer ++ '\r' :: '\n' :: []))) =
      if pyStripList (trailer ++ ['\r', '\n']) = "END".data
      then DlResult.ok body []
      else DlResult.framing := by
  have hr1 := readLineN_crlf lenLine 100 (body ++ (trailer ++ '\r' :: '\n' :: []))
    h1 (by omega)
  have hr2 := readLineN_crlf trailer 100 ([] : List Char) h4 (by omega)
  have hb := readBody_exact body (trailer ++ '\r' :: '\n' :: [])
  simp only [downloadPhase, hr1, h3, hb, hr2]
  by_cases hT : pyStripList (trailer ++ ['\r', '\n']) = "END".data
  · rw [if_neg, if_pos hT]
    simp [hT]
  · rw [if_pos, if_neg hT]
    exact Or.inl hT

/-- Witness for C6 amended: the well-formed frame `3\r\nabc` + `END\r\n`
yields exactly the 3 declared bytes. -/
theorem C6_amended_witness :
    downloadPhase ("3".data ++ '\r' :: '\n' ::
        ("abc".data ++ ("END".data ++ '\r' :: '\n' :: []))) =
      DlResult.ok "abc".data [] := by
  have h := C6_amended "3".data "abc".data "END".data (by decide) (by decide)
    (by decide) (by decide) (by decide)
  rw [h]
  decide

/-- Claim C2 counterexample: with every routing lookup returning no candidates,
a session currently at `eida.rm.ingv.it:18002` — an endpoint different from
the configured origin `webdc.eu:18002` — fails RoutingError immediately
without ever querying the origin, because the fallback requires host *and*
port to both differ and the ports are equal here.  The claim predicts a retry
at the origin whenever the endpoints differ. -/
theorem C2_counterexample :
    fetchGo (fun _ _ => none) 2 "eida.rm.ingv.it" 18002 "webdc.eu" 18002 =
      ([("eida.rm.ingv.it", 18002)], some FetchOut.routingError) ∧
    ("eida.rm.ingv.it", (18002 : Int)) ≠ ("webdc.eu", (18002 : Int)) := by decide

/-- Claim C2 amended: when a routed dispatch finds no candidates, the client
retries once from the configured origin only when *both* the current host and
the current port differ from the origin's (host-only or port-only changes
fail immediately); in all cases dispatch fails RoutingError after at most one
origin-fallback attempt, querying at most two routing tables. -/
theorem C2_amended (tbl : String → Int → Option (List TableEntry))
    (fuel : Nat) (h : String) (p : Int) (ih : String) (ip : Int)
    (hnone : ∀ a b, tbl a b = none) (hfuel : 2 ≤ fuel) :
    fetchGo tbl fuel h p ih ip =
      ((if h ≠ ih ∧ p ≠ ip then [(h, p), (ih, ip)] else [(h, p)]),
        some FetchOut.routingError) := by
  obtain ⟨f, rfl⟩ : ∃ f, fuel = f + 2 := ⟨fuel - 2, by omega⟩
  show fetchGo tbl (f + 1 + 1) h p ih ip = _
  by_cases hc : h ≠ ih ∧ p ≠ ip
  · simp [fetchGo, hnone, hc]
  · simp [fetchGo, hnone, hc]

/-- Witness for C2 amended: with both host and port changed, the origin is
retried once and dispatch still fails RoutingError. -/
theorem C2_amended_witness :
    fetchGo (fun _ _ => none) 2 "h1" 1 "h0" 2 =
      ([("h1", 1), ("h0", 2)], some FetchOut.routingError) := by
  have h := C2_amended (fun _ _ => none) 2 "h1" 1 "h0" 2 (fun _ _ => rfl)
    (by omega)
  rw [h, if_pos (by decide)]

/-- Claim C1 counterexample: on the download-phase FramingError path (wrong
trailer), the error propagates with *no* `PURGE` and *no* `BYE` sent — the
trace holds only the `DOWNLOAD` command, so the handle and the session leak. -/
theorem C1_counterexample :
    classifyPhase 7 "<line content" "3\r\nabcBAD\r\n".data "" []
        (fun _ d => d) =
      ([Cmd.download 7], [], ReqOutcome.framingError) ∧
    Cmd.purge 7 ∉ [Cmd.download 7] ∧ Cmd.bye ∉ [Cmd.download 7] := by decide

/-- Claim C1 amended: on every error exit classified as StatusError, NoData,
or EmptyResult, a `PURGE` carrying the request's server-assigned id and a
`BYE` (session close) are sent before the error propagates; the download-phase
FramingError path, however, propagates with only the `DOWNLOAD` command sent —
no `PURGE`, no `BYE` — leaving the server handle and connection dangling. -/
theorem C1_amended (reqId : Int) (doc : String) (stream : List Char)
    (dcid : String) (keys : List (String × String))
    (decrypt : String → List Char → List Char) :
    (isClassifiedErr (classifyPhase reqId doc stream dcid keys decrypt).2.2 = true →
      (classifyPhase reqId doc stream dcid keys decrypt).1 =
        [Cmd.purge reqId, Cmd.bye]) ∧
    ((classifyPhase reqId doc stream dcid keys decrypt).2.2 =
        ReqOutcome.framingError →
      (classifyPhase reqId doc stream dcid keys decrypt).1 = [Cmd.download reqId] ∧
      Cmd.purge reqId ∉ (classifyPhase reqId doc stream dcid keys decrypt).1 ∧
      Cmd.bye ∉ (classifyPhase reqId doc stream dcid keys decrypt).1) := by
  unfold classifyPhase
  split
  · exact ⟨fun _ => rfl, fun hco => by simp at hco⟩
  · split_ifs with hA hB hC
    · exact ⟨fun _ => rfl, fun hco => by simp at hco⟩
    · exact ⟨fun _ => rfl, fun hco => by simp at hco⟩
    · exact ⟨fun _ => rfl, fun hco => by simp at hco⟩
    · split
      · exact ⟨fun hc => by simp [isClassifiedErr] at hc, fun hco => by simp at hco⟩
      · exact ⟨fun hc => by simp [isClassifiedErr] at hc, fun hco => by simp at hco⟩
      · exact ⟨fun hc => by simp [isClassifiedErr] at hc,
          fun _ => ⟨rfl, by simp, by simp⟩⟩
      · exact ⟨fun hc => by simp [isClassifiedErr] at hc, fun hco => by simp at hco⟩

/-- Witness for C1 amended: a DENIED status document gets `PURGE` + `BYE`
before the StatusError propagates. -/
theorem C1_amended_witness :
    (classifyPhase 7 "status=\"DENIED\"" [] "" [] (fun _ d => d)).1 =
      [Cmd.purge 7, Cmd.bye] :=
  (C1_amended 7 "status=\"DENIED\"" [] "" [] (fun _ d => d)).1 (by decide)

/-- Claim C9 (confirmed): every `Client` constructed without an explicit
`dcid_keys` argument binds the single dict object created when the `def`
line was evaluated; constructing such a client with key-file entries mutates
that shared dict in place, so the entries are visible in the key store of
every other default-constructed client (here: after one client loads
`BIA=OfH9ekhi`, a second client constructed with no file at all sees `BIA`). -/
theorem C9_shared_default_keystore :
    (∀ (h : PyHeap) (fileLines : List String) (r : PyHeap × ClientV),
      clientInit h none fileLines = some r →
        r.2.dcidKeysAddr = defaultDcidAddr) ∧
    (∀ h : PyHeap, clientInit h none [] = some (h, ⟨defaultDcidAddr⟩)) ∧
    clientInit heap0 none ["BIA=OfH9ekhi"] =
      some (⟨[[("BIA", "OfH9ekhi")]]⟩, ⟨defaultDcidAddr⟩) ∧
    dictLookup (heapGet ⟨[[("BIA", "OfH9ekhi")]]⟩ defaultDcidAddr) "BIA" =
      some "OfH9ekhi" := by
  refine ⟨?_, ?_, by decide, by decide⟩
  · intro h lines r hr
    simp only [clientInit] at hr
    split at hr
    · simp at hr
    · rw [Option.some_inj] at hr
      subst hr
      rfl
  · intro h
    show (match loadKeyLines (heapGet h defaultDcidAddr) [] with
      | none => none
      | some d' => some (heapSet h defaultDcidAddr d', ⟨defaultDcidAddr⟩)) =
        some (h, (⟨defaultDcidAddr⟩ : ClientV))
    show some (heapSet h defaultDcidAddr (heapGet h defaultDcidAddr),
      (⟨defaultDcidAddr⟩ : ClientV)) = some (h, ⟨defaultDcidAddr⟩)
    rcases h with ⟨cells⟩
    cases cells <;> rfl

/-- Witness for C9: the client constructed from the shared default with a key
file aliases the default dict cell. -/
theorem C9_shared_default_keystore_witness :
    ((⟨[[("BIA", "OfH9ekhi")]]⟩, ⟨defaultDcidAddr⟩) : PyHeap × ClientV).2.dcidKeysAddr
      = defaultDcidAddr :=
  C9_shared_default_keystore.1 heap0 ["BIA=OfH9ekhi"]
    (⟨[[("BIA", "OfH9ekhi")]]⟩, ⟨defaultDcidAddr⟩) (by decide)
